import Mathlib

/-!
Verification of the dual-camera capture utility (`main.py`) against its
natural-language specification.

The embedding models:
  * `VideoThread` — the per-camera acquisition worker (`VideoThread` in the
    source): its mutable state (`running`, `raw_frame`), the body of one
    iteration of `run` (`runStep`), the acquisition loop itself (`runLoop`,
    parametrised by the sequence of `running`-flag values observed at each
    loop check and by the results of the successive `cap.read()` calls),
    and `stop`.
  * `capture_images` — the capture controller: timestamp/folder formatting
    (a model of `datetime.strftime` for the two patterns used), per-side
    conditional file writes, and the success/warning dialog choice.
  * the two config loaders `load_material_types` / `load_camera_config`,
    over a small model of Python JSON values and the exceptions the loaders
    can see, together with the `cameras_config.get(...)` accesses performed
    by `CameraApp.__init__`.

Machine frames are modelled as lists of rows of BGR pixel triples; `cv2`
calls that matter (`frame.copy()`, `cvtColor BGR2RGB`) are given their
observable value-level behaviour.
-/

/-- A pixel as stored by OpenCV: a BGR triple of channel values. -/
abbrev Pixel := Nat × Nat × Nat

/-- A decoded raster frame: rows of pixels. -/
abbrev CamFrame := List (List Pixel)

/-- Model of `numpy.ndarray.copy()`: yields an equal value (a fresh copy). -/
def CamFrame.copy (f : CamFrame) : CamFrame := f

/-- Model of `cv2.cvtColor(frame, cv2.COLOR_BGR2RGB)`: swap the first and
third channel of every pixel. -/
def cvtColor_BGR2RGB (f : CamFrame) : CamFrame :=
  f.map (fun row => row.map (fun p => (p.2.2, p.2.1, p.1)))

/-- Model of a Python JSON value as produced by `json.load`. -/
inductive Json where
  | null
  | bool (b : Bool)
  | num (n : Int)
  | str (s : String)
  | arr (elems : List Json)
  | obj (entries : List (String × Json))

/-- The Python exceptions relevant to the config loaders and startup:
I/O errors from `open`, decode errors from `json.load`, and the
`AttributeError` raised by calling `.get` on a non-dict value. -/
inductive PyError where
  | ioError (msg : String)
  | jsonDecodeError (msg : String)
  | attributeError
deriving DecidableEq

/-- The text used when a caught exception is interpolated into a log line. -/
def PyError.message : PyError → String
  | .ioError m => m
  | .jsonDecodeError m => m
  | .attributeError => "object has no attribute get"

/-- Model of Python `data.get(key, default)`: on a dict, look the key up and
fall back to the default; on any other value, raise `AttributeError`. -/
def dict_get (data : Json) (key : String) (default : Json) : Except PyError Json :=
  match data with
  | .obj entries => .ok ((entries.lookup key).getD default)
  | _ => .error .attributeError

/-- `CameraApp.load_material_types`. The argument is the outcome of
`open(filepath)` followed by `json.load(file)`: either the parsed JSON value
or the exception one of those raised. The whole `try` body — including the
`data.get("materials", [])` call — is covered by the `except` clause, which
prints one diagnostic and returns `["unknown"]`. The result is the returned
Python value together with the list of log lines printed. -/
def load_material_types (opened : Except PyError Json) : Json × List String :=
  match opened with
  | .error e => (Json.arr [Json.str "unknown"], ["Error loading material types: " ++ e.message])
  | .ok data =>
    match dict_get data "materials" (Json.arr []) with
    | .ok v => (v, [])
    | .error e => (Json.arr [Json.str "unknown"], ["Error loading material types: " ++ e.message])

/-- `CameraApp.load_camera_config`: returns the parsed JSON value unchanged
on success; on an `open`/`json.load` exception prints one diagnostic and
returns the empty dict `{}`. -/
def load_camera_config (opened : Except PyError Json) : Json × List String :=
  match opened with
  | .ok data => (data, [])
  | .error e => (Json.obj [], ["Error loading camera config: " ++ e.message])

/-- The camera-URL accesses performed by `CameraApp.__init__` right after
loading the config: `self.cameras_config.get("left", "")` and
`self.cameras_config.get("right", "")`.  These run outside any `try`, so an
`AttributeError` from `.get` propagates out of `__init__`. -/
def init_camera_urls (cameras_config : Json) : Except PyError (Json × Json) := do
  let left_url ← dict_get cameras_config "left" (Json.str "")
  let right_url ← dict_get cameras_config "right" (Json.str "")
  return (left_url, right_url)

/-- A wall-clock instant as observed through `datetime.now()`. -/
structure DateTime where
  year : Nat
  month : Nat
  day : Nat
  hour : Nat
  minute : Nat
  second : Nat
deriving DecidableEq

/-- Zero-pad a field to (at least) two digits, as `strftime` does for
`%m %d %H %M %S`. -/
def pad2 (n : Nat) : String :=
  if n < 10 then "0" ++ Nat.repr n else Nat.repr n

/-- Zero-pad a year to (at least) four digits, as `strftime` does for `%Y`. -/
def pad4 (n : Nat) : String :=
  if n < 10 then "000" ++ Nat.repr n
  else if n < 100 then "00" ++ Nat.repr n
  else if n < 1000 then "0" ++ Nat.repr n
  else Nat.repr n

/-- Model of `datetime.now().strftime("%Y%m%d_%H%M%S")`. -/
def strftime_timestamp (d : DateTime) : String :=
  pad4 d.year ++ pad2 d.month ++ pad2 d.day ++ "_" ++
    pad2 d.hour ++ pad2 d.minute ++ pad2 d.second

/-- Model of `datetime.now().strftime("%d_%m_%Y")`. -/
def strftime_folder (d : DateTime) : String :=
  pad2 d.day ++ "_" ++ pad2 d.month ++ "_" ++ pad4 d.year

/-- The modal dialog shown at the end of `capture_images`: either the
information box whose text lists the saved paths, or the warning box. -/
inductive Dialog where
  | success (paths : List String)
  | warning
deriving DecidableEq

/-- Everything observable about one run of `CameraApp.capture_images`:
the directory passed to `os.makedirs`, the `saved_files` list, the
`cv2.imwrite` calls performed (path and frame), and the dialog shown. -/
structure CaptureResult where
  folder_created : String
  saved_files : List String
  writes : List (String × CamFrame)
  dialog : Dialog

/-- `CameraApp.capture_images`.  `left_raw` / `right_raw` are the
`raw_frame` fields of the two worker threads at the moment of the click;
`material` is `self.dropdown.currentText()`; `now_ts` and `now_folder` are
the instants observed by the two successive `datetime.now()` calls. -/
def capture_images (left_raw right_raw : Option CamFrame) (material : String)
    (now_ts now_folder : DateTime) : CaptureResult :=
  let timestamp := strftime_timestamp now_ts
  let folder_name := strftime_folder now_folder
  let left_writes : List (String × CamFrame) :=
    match left_raw with
    | some f => [("results/" ++ folder_name ++ "/" ++ material ++ "_left_" ++ timestamp ++ ".png", f)]
    | none => []
  let right_writes : List (String × CamFrame) :=
    match right_raw with
    | some f => [("results/" ++ folder_name ++ "/" ++ material ++ "_right_" ++ timestamp ++ ".png", f)]
    | none => []
  let writes := left_writes ++ right_writes
  let saved_files := writes.map Prod.fst
  { folder_created := "results/" ++ folder_name
    saved_files := saved_files
    writes := writes
    dialog := if saved_files.isEmpty then Dialog.warning else Dialog.success saved_files }

/-- The mutable state of one `VideoThread` worker: the camera source it was
constructed with, the `running` flag, and the last stored raw frame
(`raw_frame`, a class attribute initialised to `None`). -/
structure VideoThread where
  url : Json
  running : Bool
  raw_frame : Option CamFrame

/-- `VideoThread.__init__(url)`: running starts `True`, no raw frame yet. -/
def VideoThread.mk_init (url : Json) : VideoThread :=
  { url := url, running := true, raw_frame := none }

/-- `VideoThread.stop`: sets `self.running = False` (the subsequent
`self.wait()` is the join whose boundedness is proved from `runLoop`). -/
def VideoThread.stop (t : VideoThread) : VideoThread :=
  { t with running := false }

/-- One iteration of the body of `VideoThread.run`'s `while` loop, applied
to the outcome of `cap.read()` (`some frame` when `ret` is true, `none`
otherwise).  On success the raw frame is overwritten with a copy and the
RGB-converted image is emitted via `frame_received`; on failure nothing
happens.  Returns the new state and the emitted image, if any. -/
def runStep (t : VideoThread) (read : Option CamFrame) : VideoThread × Option CamFrame :=
  match read with
  | some frame => ({ t with raw_frame := some frame.copy }, some (cvtColor_BGR2RGB frame))
  | none => (t, none)

/-- The `while self.running:` acquisition loop of `VideoThread.run`.
`flag i` is the value of `self.running` observed at the `i`-th loop check
(it changes only when `stop` runs concurrently); `reads i` is the outcome
of the `i`-th `cap.read()`.  `fuel` bounds how many checks we unfold:
`none` means the loop was still running after `fuel` checks; `some (t, true)`
means the loop exited with state `t` and executed `cap.release()`. -/
def runLoop (flag : Nat → Bool) (reads : Nat → Option CamFrame) :
    Nat → Nat → VideoThread → Option (VideoThread × Bool)
  | _, 0, _ => none
  | i, fuel + 1, t =>
    if flag i then runLoop flag reads (i + 1) fuel (runStep t (reads i)).1
    else some (t, true)

/-- The worker state after the first `n` iterations of the acquisition
loop, with `reads i` the outcome of the `i`-th `cap.read()`. -/
def iterateSteps (reads : Nat → Option CamFrame) : Nat → VideoThread → VideoThread
  | 0, t => t
  | n + 1, t => (runStep (iterateSteps reads n t) (reads n)).1

/-! ## Helper lemmas -/

lemma string_eq_of_data_eq {s t : String} (h : s.data = t.data) : s = t :=
  String.ext h

/-- Two strings of the shape `a ++ ts ++ ".png"` agree on their timestamp
component whenever the timestamps have equal length. -/
lemma append_png_inj {a b ts ts' : String} (hlen : ts.length = ts'.length)
    (h : a ++ ts ++ ".png" = b ++ ts' ++ ".png") : ts = ts' := by
  have hd := congrArg String.data h
  simp only [String.data_append, List.append_assoc] at hd
  have hl : (ts.data ++ (".png" : String).data).length
      = (ts'.data ++ (".png" : String).data).length := by
    simp only [List.length_append]
    have : ts.data.length = ts'.data.length := hlen
    omega
  have h2 := (List.append_inj' hd hl).2
  have h3 := (List.append_inj' h2 rfl).1
  exact string_eq_of_data_eq h3

/-- The left-side and right-side output paths of a single capture action are
distinct strings (their lengths differ by one). -/
lemma left_path_ne_right_path (F M T : String) :
    "results/" ++ F ++ "/" ++ M ++ "_left_" ++ T ++ ".png" ≠
      "results/" ++ F ++ "/" ++ M ++ "_right_" ++ T ++ ".png" := by
  intro h
  have hl := congrArg String.length h
  simp only [String.length_append] at hl
  rw [show ("_left_" : String).length = 6 from rfl,
      show ("_right_" : String).length = 7 from rfl] at hl
  omega

/-- Explicit form of the `saved_files` list of one capture action. -/
lemma capture_saved_files_eq (l r : Option CamFrame) (m : String) (n1 n2 : DateTime) :
    (capture_images l r m n1 n2).saved_files =
      (match l with
        | some _ => ["results/" ++ strftime_folder n2 ++ "/" ++ m ++ "_left_" ++
            strftime_timestamp n1 ++ ".png"]
        | none => []) ++
      (match r with
        | some _ => ["results/" ++ strftime_folder n2 ++ "/" ++ m ++ "_right_" ++
            strftime_timestamp n1 ++ ".png"]
        | none => []) := by
  cases l <;> cases r <;> simp [capture_images]

/-! ## Claim theorems -/

/-- Claim C1: on every capture action, if at least one file was written the
dialog is the success dialog listing exactly the written paths; if none was
written (both sides hold no raw frame) the dialog is the warning; the single
returned dialog value makes the two outcomes mutually exclusive. -/
theorem C1_capture_dialog (l r : Option CamFrame) (m : String) (n1 n2 : DateTime) :
    (capture_images l r m n1 n2).dialog =
      (if (capture_images l r m n1 n2).saved_files.isEmpty then Dialog.warning
       else Dialog.success (capture_images l r m n1 n2).saved_files) ∧
    ((capture_images l r m n1 n2).saved_files.isEmpty ↔ (l = none ∧ r = none)) ∧
    (capture_images l r m n1 n2).saved_files =
      (capture_images l r m n1 n2).writes.map Prod.fst := by
  refine ⟨?_, ?_, ?_⟩ <;> cases l <;> cases r <;> simp [capture_images]

/-- Closed instance of `C1_capture_dialog` at a concrete state. -/
theorem C1_capture_dialog_witness :
    (capture_images (some [[(1, 2, 3)]]) none "wood" ⟨2026, 10, 12, 9, 5, 3⟩
        ⟨2026, 10, 12, 9, 5, 3⟩).saved_files.isEmpty ↔
      ((some [[(1, 2, 3)]] : Option CamFrame) = none ∧ (none : Option CamFrame) = none) :=
  (C1_capture_dialog (some [[(1, 2, 3)]]) none "wood" ⟨2026, 10, 12, 9, 5, 3⟩
    ⟨2026, 10, 12, 9, 5, 3⟩).2.1

/-- Claim C2: each side is written exactly when that side's worker holds a
raw frame; hence each action performs 0, 1 or 2 writes. -/
theorem C2_per_side_write (l r : Option CamFrame) (m : String) (n1 n2 : DateTime) :
    (capture_images l r m n1 n2).writes.length =
      ((if l.isSome then 1 else 0) + (if r.isSome then 1 else 0)) ∧
    ((∃ f, ("results/" ++ strftime_folder n2 ++ "/" ++ m ++ "_left_" ++
        strftime_timestamp n1 ++ ".png", f) ∈ (capture_images l r m n1 n2).writes) ↔
      l ≠ none) ∧
    ((∃ f, ("results/" ++ strftime_folder n2 ++ "/" ++ m ++ "_right_" ++
        strftime_timestamp n1 ++ ".png", f) ∈ (capture_images l r m n1 n2).writes) ↔
      r ≠ none) ∧
    (capture_images l r m n1 n2).writes.length ≤ 2 := by
  have hne := left_path_ne_right_path (strftime_folder n2) m (strftime_timestamp n1)
  refine ⟨?_, ?_, ?_, ?_⟩ <;> cases l <;> cases r <;>
    simp [capture_images, hne, Ne.symm hne]

/-- Closed instance of `C2_per_side_write` at a concrete state. -/
theorem C2_per_side_write_witness :
    (capture_images none (some [[(4, 5, 6)]]) "steel" ⟨2026, 10, 12, 9, 5, 3⟩
        ⟨2026, 10, 12, 9, 5, 3⟩).writes.length =
      ((if (none : Option CamFrame).isSome then 1 else 0) +
        (if (some [[(4, 5, 6)]] : Option CamFrame).isSome then 1 else 0)) :=
  (C2_per_side_write none (some [[(4, 5, 6)]]) "steel" ⟨2026, 10, 12, 9, 5, 3⟩
    ⟨2026, 10, 12, 9, 5, 3⟩).1

/-- Claim C3: every written path has the shape
`results/<folder>/<material>_<side>_<timestamp>.png` with the folder the
`DD_MM_YYYY` rendering of the date observed when the folder name was
computed, the timestamp the `YYYYMMDD_HHMMSS` rendering of the time observed
when the timestamp was computed, the selected material, and side `left` or
`right`; the two concrete conjuncts pin down the two format patterns. -/
theorem C3_path_format (l r : Option CamFrame) (m : String) (n1 n2 : DateTime) :
    (∀ p ∈ (capture_images l r m n1 n2).saved_files,
      p = "results/" ++ strftime_folder n2 ++ "/" ++ m ++ "_left_" ++
          strftime_timestamp n1 ++ ".png" ∨
      p = "results/" ++ strftime_folder n2 ++ "/" ++ m ++ "_right_" ++
          strftime_timestamp n1 ++ ".png") ∧
    strftime_timestamp ⟨2026, 10, 12, 9, 5, 3⟩ = "20261012_090503" ∧
    strftime_folder ⟨2026, 10, 12, 9, 5, 3⟩ = "12_10_2026" := by
  refine ⟨?_, rfl, rfl⟩
  intro p hp
  rw [capture_saved_files_eq] at hp
  cases l <;> cases r <;> simp_all

/-- Closed instance of `C3_path_format` at a concrete state. -/
theorem C3_path_format_witness :
    "results/" ++ strftime_folder ⟨2026, 10, 12, 9, 5, 3⟩ ++ "/" ++ "wood" ++
        "_left_" ++ strftime_timestamp ⟨2026, 10, 12, 9, 5, 3⟩ ++ ".png" =
      "results/" ++ strftime_folder ⟨2026, 10, 12, 9, 5, 3⟩ ++ "/" ++ "wood" ++
        "_left_" ++ strftime_timestamp ⟨2026, 10, 12, 9, 5, 3⟩ ++ ".png" ∨
    "results/" ++ strftime_folder ⟨2026, 10, 12, 9, 5, 3⟩ ++ "/" ++ "wood" ++
        "_left_" ++ strftime_timestamp ⟨2026, 10, 12, 9, 5, 3⟩ ++ ".png" =
      "results/" ++ strftime_folder ⟨2026, 10, 12, 9, 5, 3⟩ ++ "/" ++ "wood" ++
        "_right_" ++ strftime_timestamp ⟨2026, 10, 12, 9, 5, 3⟩ ++ ".png" :=
  (C3_path_format (some [[(1, 2, 3)]]) none "wood" ⟨2026, 10, 12, 9, 5, 3⟩
      ⟨2026, 10, 12, 9, 5, 3⟩).1
    ("results/" ++ strftime_folder ⟨2026, 10, 12, 9, 5, 3⟩ ++ "/" ++ "wood" ++
      "_left_" ++ strftime_timestamp ⟨2026, 10, 12, 9, 5, 3⟩ ++ ".png")
    (by rw [capture_saved_files_eq]; simp)

/-- Claim C10: the output path is built by direct interpolation of the
selected material label — for every label the written paths are literally
`results/<folder>/<label>_<side>_<timestamp>.png`, and the label occurs
verbatim (unescaped, unsanitized) inside each written path, whatever
characters it contains. -/
theorem C10_no_sanitization (m : String) (f g : CamFrame) (n1 n2 : DateTime) :
    (capture_images (some f) (some g) m n1 n2).saved_files =
      ["results/" ++ strftime_folder n2 ++ "/" ++ m ++ "_left_" ++
          strftime_timestamp n1 ++ ".png",
        "results/" ++ strftime_folder n2 ++ "/" ++ m ++ "_right_" ++
          strftime_timestamp n1 ++ ".png"] ∧
    (∀ p ∈ (capture_images (some f) (some g) m n1 n2).saved_files,
      ∃ pre post : String, p = pre ++ m ++ post) := by
  refine ⟨by simp [capture_images], ?_⟩
  intro p hp
  rw [capture_saved_files_eq] at hp
  simp at hp
  rcases hp with hp | hp
  · refine ⟨"results/" ++ strftime_folder n2 ++ "/",
      "_left_" ++ strftime_timestamp n1 ++ ".png", ?_⟩
    rw [hp]
    simp [String.append_assoc]
  · refine ⟨"results/" ++ strftime_folder n2 ++ "/",
      "_right_" ++ strftime_timestamp n1 ++ ".png", ?_⟩
    rw [hp]
    simp [String.append_assoc]

/-- Closed instance of `C10_no_sanitization` with a label containing a path
separator: the slash ends up verbatim in the written path. -/
theorem C10_no_sanitization_witness :
    ∃ pre post : String,
      "results/" ++ strftime_folder ⟨2026, 10, 12, 0, 0, 0⟩ ++ "/" ++ "a/b" ++
          "_left_" ++ strftime_timestamp ⟨2026, 10, 12, 9, 5, 3⟩ ++ ".png" =
        pre ++ "a/b" ++ post :=
  (C10_no_sanitization "a/b" [[(1, 2, 3)]] [[(4, 5, 6)]] ⟨2026, 10, 12, 9, 5, 3⟩
      ⟨2026, 10, 12, 0, 0, 0⟩).2
    ("results/" ++ strftime_folder ⟨2026, 10, 12, 0, 0, 0⟩ ++ "/" ++ "a/b" ++
      "_left_" ++ strftime_timestamp ⟨2026, 10, 12, 9, 5, 3⟩ ++ ".png")
    (by rw [capture_saved_files_eq]; simp)

/-- Claim C4: when opening or JSON-parsing a config file raises any error,
each loader logs exactly one diagnostic and returns its documented default —
`["unknown"]` for the materials loader, `{}` for the camera loader — and
(being total functions of the outcome) never propagates the failure. -/
theorem C4_loader_defaults (e : PyError) :
    load_material_types (Except.error e) =
      (Json.arr [Json.str "unknown"], ["Error loading material types: " ++ e.message]) ∧
    load_camera_config (Except.error e) =
      (Json.obj [], ["Error loading camera config: " ++ e.message]) ∧
    (load_material_types (Except.error e)).2.length = 1 ∧
    (load_camera_config (Except.error e)).2.length = 1 :=
  ⟨rfl, rfl, rfl, rfl⟩

/-- Closed instance of `C4_loader_defaults` at a concrete I/O error. -/
theorem C4_loader_defaults_witness :
    load_material_types (Except.error (PyError.ioError "No such file")) =
      (Json.arr [Json.str "unknown"],
        ["Error loading material types: " ++ (PyError.ioError "No such file").message]) :=
  (C4_loader_defaults (PyError.ioError "No such file")).1

/-- Counterexample to claim C5: `cameras.json` whose content is the valid
JSON document `[]` parses but is not a mapping.  `load_camera_config`
returns it unchanged (and silently), and the `cameras_config.get("left", "")`
call in `CameraApp.__init__` then raises `AttributeError` — the failure is
raised in the loader's caller instead of degrading to a default. -/
theorem C5_counterexample :
    load_camera_config (Except.ok (Json.arr [])) = (Json.arr [], []) ∧
    init_camera_urls (load_camera_config (Except.ok (Json.arr []))).1 =
      Except.error PyError.attributeError :=
  ⟨rfl, rfl⟩

/-- Claim C5 as amended: parseable JSON with a missing key degrades silently
(`[]` for materials, `""` per missing camera side); a non-mapping top-level
value in `materials.json` is caught inside the loader (logged, default
`["unknown"]`); but a non-mapping top-level value in `cameras.json` is
returned unchanged and the `.get` calls in `__init__` raise
`AttributeError`, so that startup fails rather than degrading. -/
theorem C5_amended_shape_handling :
    (∀ entries : List (String × Json), entries.lookup "materials" = none →
      load_material_types (Except.ok (Json.obj entries)) = (Json.arr [], [])) ∧
    (∀ data : Json, (∀ entries, data ≠ Json.obj entries) →
      load_material_types (Except.ok data) =
        (Json.arr [Json.str "unknown"],
          ["Error loading material types: " ++ PyError.attributeError.message])) ∧
    (∀ entries : List (String × Json), entries.lookup "left" = none →
      entries.lookup "right" = none →
      init_camera_urls (Json.obj entries) = Except.ok (Json.str "", Json.str "")) ∧
    (∀ data : Json, (∀ entries, data ≠ Json.obj entries) →
      init_camera_urls data = Except.error PyError.attributeError) := by
  refine ⟨?_, ?_, ?_, ?_⟩
  · intro entries h
    simp [load_material_types, dict_get, h]
  · intro data h
    cases data with
    | obj entries => exact absurd rfl (h entries)
    | _ => rfl
  · intro entries hl hr
    simp only [init_camera_urls, dict_get, hl, hr]
    rfl
  · intro data h
    cases data with
    | obj entries => exact absurd rfl (h entries)
    | _ => rfl

/-- Closed instance of `C5_amended_shape_handling` at concrete inputs. -/
theorem C5_amended_shape_handling_witness :
    load_material_types (Except.ok (Json.obj [("x", Json.null)])) = (Json.arr [], []) ∧
    init_camera_urls (Json.arr []) = Except.error PyError.attributeError :=
  ⟨C5_amended_shape_handling.1 [("x", Json.null)] rfl,
    C5_amended_shape_handling.2.2.2 (Json.arr []) (fun _ h => Json.noConfusion h)⟩

/-- Claim C6: an acquisition-loop iteration whose `cap.read()` yields no
frame stores nothing, publishes nothing, raises nothing, and the loop simply
proceeds to the next check with unchanged worker state. -/
theorem C6_read_failure_skips (flag : Nat → Bool) (reads : Nat → Option CamFrame)
    (i fuel : Nat) (t : VideoThread) (h1 : flag i = true) (h2 : reads i = none) :
    runStep t none = (t, none) ∧
    runLoop flag reads i (fuel + 1) t = runLoop flag reads (i + 1) fuel t := by
  refine ⟨rfl, ?_⟩
  simp [runLoop, h1, h2, runStep]

/-- Closed instance of `C6_read_failure_skips` at a concrete schedule. -/
theorem C6_read_failure_skips_witness :
    runStep (VideoThread.mk_init Json.null) none = (VideoThread.mk_init Json.null, none) ∧
    runLoop (fun _ => true) (fun _ => none) 0 1 (VideoThread.mk_init Json.null) =
      runLoop (fun _ => true) (fun _ => none) 1 0 (VideoThread.mk_init Json.null) :=
  C6_read_failure_skips (fun _ => true) (fun _ => none) 0 0 (VideoThread.mk_init Json.null)
    rfl rfl

/-- Single unfolding of one check of the acquisition loop. -/
lemma runLoop_succ (flag : Nat → Bool) (reads : Nat → Option CamFrame)
    (i fuel : Nat) (t : VideoThread) :
    runLoop flag reads i (fuel + 1) t =
      if flag i then runLoop flag reads (i + 1) fuel (runStep t (reads i)).1
      else some (t, true) := rfl

/-- The acquisition loop reaches the release point within `k + 1` checks
once the observed `running` flag is false at check `k`. -/
lemma runLoop_stops (flag : Nat → Bool) (reads : Nat → Option CamFrame) :
    ∀ k i t, flag (i + k) = false →
      ∃ s, runLoop flag reads i (k + 1) t = some (s, true) := by
  intro k
  induction k with
  | zero =>
    intro i t h
    rw [Nat.add_zero] at h
    exact ⟨t, by rw [runLoop_succ, if_neg (by simp [h])]⟩
  | succ k ih =>
    intro i t h
    cases hf : flag i with
    | true =>
      have h' : flag ((i + 1) + k) = false := by
        rw [show (i + 1) + k = i + (k + 1) from by omega]
        exact h
      obtain ⟨s, hs⟩ := ih (i + 1) (runStep t (reads i)).1 h'
      exact ⟨s, by rw [runLoop_succ, if_pos (by simp [hf])]; exact hs⟩
    | false => exact ⟨t, by rw [runLoop_succ, if_neg (by simp [hf])]⟩

/-- Claim C7: once `stop` has set the `running` flag to false (observed at
check `k`), the acquisition loop terminates within `k + 1` checks and
executes `cap.release()`; `stop` itself leaves the flag false and is
idempotent, so a second `stop` on an already-stopped worker changes
nothing. -/
theorem C7_stop_terminates (flag : Nat → Bool) (reads : Nat → Option CamFrame)
    (k : Nat) (hk : flag k = false) :
    (∀ t : VideoThread, ∃ s, runLoop flag reads 0 (k + 1) t = some (s, true)) ∧
    (∀ t : VideoThread, (t.stop).running = false ∧ t.stop.stop = t.stop) := by
  constructor
  · intro t
    exact runLoop_stops flag reads k 0 t (by simpa using hk)
  · intro t
    exact ⟨rfl, rfl⟩

/-- Closed instance of `C7_stop_terminates` at a concrete schedule. -/
theorem C7_stop_terminates_witness :
    ∃ s, runLoop (fun _ => false) (fun _ => none) 0 1 (VideoThread.mk_init Json.null) =
      some (s, true) :=
  (C7_stop_terminates (fun _ => false) (fun _ => none) 0 rfl).1
    (VideoThread.mk_init Json.null)

/-- After any number of loop iterations, a worker that held a raw frame
still holds one: `runStep` only ever overwrites `raw_frame` with a newer
frame, never clears it. -/
lemma iterateSteps_raw_some (reads : Nat → Option CamFrame) (n : Nat)
    (t : VideoThread) (f : CamFrame) (h : t.raw_frame = some f) :
    ∃ g, (iterateSteps reads n t).raw_frame = some g := by
  induction n with
  | zero => exact ⟨f, h⟩
  | succ n ih =>
    obtain ⟨g, hg⟩ := ih
    cases hr : reads n with
    | none => exact ⟨g, by simp [iterateSteps, hr, runStep, hg]⟩
    | some fr => exact ⟨fr.copy, by simp [iterateSteps, hr, runStep]⟩

/-- A run of iterations in which every read fails leaves the worker state
untouched. -/
lemma iterateSteps_none_id (n : Nat) (t : VideoThread) :
    iterateSteps (fun _ => none) n t = t := by
  induction n with
  | zero => rfl
  | succ n ih => simp [iterateSteps, runStep, ih]

/-- Claim C9: once a worker has stored a raw frame, the frame slot is never
cleared again — after any further iterations (including ones whose reads all
fail) it still holds a frame, and any later capture action writes a file for
that side. -/
theorem C9_raw_frame_persists (t : VideoThread) (f : CamFrame)
    (h : t.raw_frame = some f) :
    (∀ (reads : Nat → Option CamFrame) (n : Nat),
      (iterateSteps reads n t).raw_frame ≠ none) ∧
    (∀ n : Nat, iterateSteps (fun _ => none) n t = t) ∧
    (∀ (reads : Nat → Option CamFrame) (n : Nat) (r : Option CamFrame)
        (m : String) (n1 n2 : DateTime),
      ∃ g, ("results/" ++ strftime_folder n2 ++ "/" ++ m ++ "_left_" ++
          strftime_timestamp n1 ++ ".png", g) ∈
        (capture_images (iterateSteps reads n t).raw_frame r m n1 n2).writes) := by
  refine ⟨?_, ?_, ?_⟩
  · intro reads n hn
    obtain ⟨g, hg⟩ := iterateSteps_raw_some reads n t f h
    rw [hn] at hg
    exact Option.noConfusion hg
  · intro n
    exact iterateSteps_none_id n t
  · intro reads n r m n1 n2
    obtain ⟨g, hg⟩ := iterateSteps_raw_some reads n t f h
    rw [hg]
    exact ⟨g, by cases r <;> simp [capture_images]⟩

/-- Closed instance of `C9_raw_frame_persists`: failed reads leave the
stored frame in place. -/
theorem C9_raw_frame_persists_witness :
    iterateSteps (fun _ => none) 3 ⟨Json.null, true, some [[(1, 2, 3)]]⟩ =
      ⟨Json.null, true, some [[(1, 2, 3)]]⟩ :=
  (C9_raw_frame_persists ⟨Json.null, true, some [[(1, 2, 3)]]⟩ [[(1, 2, 3)]] rfl).2.1 3

/-- Width of the two-digit zero-padded field for any in-range value. -/
lemma pad2_length_two : ∀ n, n < 100 → (pad2 n).length = 2 := by decide

/-- Two timestamps of the same year (with all sub-year fields in range)
render to strings of equal length. -/
lemma strftime_timestamp_length_eq (u v : DateTime) (hy : u.year = v.year)
    (h1 : u.month < 100) (h2 : u.day < 100) (h3 : u.hour < 100)
    (h4 : u.minute < 100) (h5 : u.second < 100)
    (h6 : v.month < 100) (h7 : v.day < 100) (h8 : v.hour < 100)
    (h9 : v.minute < 100) (h10 : v.second < 100) :
    (strftime_timestamp u).length = (strftime_timestamp v).length := by
  simp only [strftime_timestamp, String.length_append, hy,
    pad2_length_two _ h1, pad2_length_two _ h2, pad2_length_two _ h3,
    pad2_length_two _ h4, pad2_length_two _ h5, pad2_length_two _ h6,
    pad2_length_two _ h7, pad2_length_two _ h8, pad2_length_two _ h9,
    pad2_length_two _ h10]

/-- Every path in `saved_files` is the left path or the right path of that
capture action. -/
lemma capture_mem_cases (l r : Option CamFrame) (m : String) (n1 n2 : DateTime)
    (p : String) (hp : p ∈ (capture_images l r m n1 n2).saved_files) :
    p = "results/" ++ strftime_folder n2 ++ "/" ++ m ++ "_left_" ++
        strftime_timestamp n1 ++ ".png" ∨
    p = "results/" ++ strftime_folder n2 ++ "/" ++ m ++ "_right_" ++
        strftime_timestamp n1 ++ ".png" := by
  rw [capture_saved_files_eq] at hp
  cases l <;> cases r <;> simp_all

/-- Claim C8: two capture actions on the same day whose timestamp strings
differ use the same date folder, and no path written by the first action is
written again by the second. -/
theorem C8_same_day_no_overwrite (l1 r1 l2 r2 : Option CamFrame) (m1 m2 : String)
    (u1 d1 u2 d2 : DateTime)
    (hday : d1.day = d2.day) (hmon : d1.month = d2.month) (hyr : d1.year = d2.year)
    (hy : u1.year = u2.year)
    (h1 : u1.month < 100) (h2 : u1.day < 100) (h3 : u1.hour < 100)
    (h4 : u1.minute < 100) (h5 : u1.second < 100)
    (h6 : u2.month < 100) (h7 : u2.day < 100) (h8 : u2.hour < 100)
    (h9 : u2.minute < 100) (h10 : u2.second < 100)
    (hts : strftime_timestamp u1 ≠ strftime_timestamp u2) :
    (capture_images l2 r2 m2 u2 d2).folder_created =
      (capture_images l1 r1 m1 u1 d1).folder_created ∧
    ∀ p ∈ (capture_images l2 r2 m2 u2 d2).saved_files,
      p ∉ (capture_images l1 r1 m1 u1 d1).saved_files := by
  have hlen := strftime_timestamp_length_eq u1 u2 hy h1 h2 h3 h4 h5 h6 h7 h8 h9 h10
  constructor
  · simp [capture_images, strftime_folder, hday, hmon, hyr]
  · intro p hp2 hp1
    rcases capture_mem_cases l2 r2 m2 u2 d2 p hp2 with hq2 | hq2 <;>
      rcases capture_mem_cases l1 r1 m1 u1 d1 p hp1 with hq1 | hq1 <;>
      exact hts (append_png_inj hlen.symm (hq2.symm.trans hq1)).symm

/-- Closed instance of `C8_same_day_no_overwrite`: captures one second apart
on the same day share the date folder. -/
theorem C8_same_day_no_overwrite_witness :
    (capture_images (some [[(1, 2, 3)]]) none "wood" ⟨2026, 10, 12, 9, 0, 1⟩
        ⟨2026, 10, 12, 0, 0, 0⟩).folder_created =
      (capture_images (some [[(1, 2, 3)]]) none "wood" ⟨2026, 10, 12, 9, 0, 0⟩
        ⟨2026, 10, 12, 0, 0, 0⟩).folder_created :=
  (C8_same_day_no_overwrite (some [[(1, 2, 3)]]) none (some [[(1, 2, 3)]]) none
    "wood" "wood" ⟨2026, 10, 12, 9, 0, 0⟩ ⟨2026, 10, 12, 0, 0, 0⟩
    ⟨2026, 10, 12, 9, 0, 1⟩ ⟨2026, 10, 12, 0, 0, 0⟩
    rfl rfl rfl rfl
    (by decide) (by decide) (by decide) (by decide) (by decide)
    (by decide) (by decide) (by decide) (by decide) (by decide)
    (by decide)).1
